import Mathlib

/-!
Verification of the bet bookkeeping and metrics engine of the
Soccer-Betting-Dashboard repository (src/soccer_betting.py).

The Python source is shallowly embedded: Python floats are modelled as
exact rationals (`ℚ`), Python lists as `List`, pandas dataframes of bet
rows as `List Bet`, `None`/missing values as `Option`, raised
`ValueError`s as the `Except.error` branch, and the SQLite database as
an explicit state value threaded through the stateful operations.
The Python builtin round at two decimal places (round-half-to-even) is
modelled by `roundHalfEven` over `ℚ`.
-/

namespace SoccerBetting

/-- A parlay leg, as built by the UI and consumed by
`calculate_parlay_odds` (a dict with keys team_a, team_b, bet_type,
sport, odds, notes in the source). -/
structure ParlayLeg where
  team_a : String
  team_b : String
  bet_type : String
  sport : String
  odds : ℚ
  notes : String
deriving DecidableEq

/-- A bet row as stored in the `bets` table (column order of the
source schema; the auto-assigned `id` is kept separately as the key in
`BetsDb.rows`).  The source stores `parlay_legs` as a JSON string
produced by `json.dumps`; the structured list it encodes is stored
directly here. -/
structure Bet where
  date : String
  team_a : String
  team_b : String
  bet_type : String
  sport : String
  stake : ℚ
  odds : ℚ
  result : String
  profit_loss : ℚ
  notes : String
  is_parlay : Bool
  parlay_legs : Option (List ParlayLeg)
deriving DecidableEq

/-- The `bets` table: rows keyed by their AUTOINCREMENT id, plus the
next id to assign. -/
structure BetsDb where
  nextId : Nat
  rows : List (Nat × Bet)
deriving DecidableEq

/-- Model of `calculate_profit_loss` (src/soccer_betting.py lines
116-122):
Win gives `stake*odds - stake`, Loss gives `-stake`, anything else
(Push/Pending) gives 0. -/
def calculate_profit_loss (stake odds : ℚ) (result : String) : ℚ :=
  if result = "Win" then stake * odds - stake
  else if result = "Loss" then -stake
  else 0

/-- Model of `validate_bet_input` (lines 148-156): accumulates an error message
for each violated rule, in order. -/
def validate_bet_input (stake odds : ℚ) (result : String) : List String :=
  let errors : List String := []
  let errors := if stake ≤ 0 then errors ++ ["Stake must be positive"] else errors
  let errors := if odds < 1 then errors ++ ["Odds must be at least 1.0"] else errors
  let errors :=
    if result ∈ ["Pending", "Win", "Loss", "Push"] then errors
    else errors ++ ["Invalid result"]
  errors

/-- Floor of a rational as an integer (executable: floored division of
numerator by denominator). -/
def qfloor (x : ℚ) : ℤ := Int.fdiv x.num x.den

/-- Round-half-to-even to an integer, the rounding mode of the Python
builtin round.  With `n = ⌊x⌋`, the fractional part `x - n` is
compared against 1/2 through the integer `twice = 2·den·(x - n)`
versus `den`. -/
def roundHalfEven (x : ℚ) : ℤ :=
  let n := qfloor x
  let twice := 2 * (x.num - n * x.den)
  if twice < x.den then n
  else if (x.den : ℤ) < twice then n + 1
  else if n % 2 = 0 then n else n + 1

/-- Model of the Python call round(x, 2): round-half-to-even at two
decimal places, `roundHalfEven (x * 100) / 100`. -/
def round2 (x : ℚ) : ℚ := mkRat (roundHalfEven (x * 100)) 100

/-- Model of `calculate_parlay_odds` (lines 138-145): 1.0 for an empty
(falsy) leg list, otherwise the left fold of leg-odds multiplication
started at 1.0, rounded to two decimals. -/
def calculate_parlay_odds (legs : List ParlayLeg) : ℚ :=
  if legs = [] then 1
  else round2 (legs.foldl (fun acc leg => acc * leg.odds) 1)

/-- The truthiness test `if parlay_legs and isinstance(parlay_legs, list)`
in `add_bet`/`update_bet`: the legs are serialized (and stored) only when
a non-empty list was passed; otherwise NULL is stored. -/
def parlayLegsStored (parlay_legs : Option (List ParlayLeg)) : Option (List ParlayLeg) :=
  match parlay_legs with
  | some legs => if legs = [] then none else some legs
  | none => none

/-- Model of `add_bet` (lines 67-88): validates, raises `ValueError` joining all
error messages if any, otherwise derives profit_loss and INSERTs a new
row with a fresh id.  The Python function returns `None` on success;
the returned `Option Nat` is that Python return value. -/
def add_bet (date team_a team_b bet_type sport : String) (stake odds : ℚ)
    (result : String) (notes : String) (is_parlay : Bool)
    (parlay_legs : Option (List ParlayLeg)) (db : BetsDb) :
    Except String (BetsDb × Option Nat) :=
  let errors := validate_bet_input stake odds result
  if errors ≠ [] then .error (String.intercalate "; " errors)
  else
    let profit_loss := calculate_profit_loss stake odds result
    let bet : Bet :=
      ⟨date, team_a, team_b, bet_type, sport, stake, odds, result,
        profit_loss, notes, is_parlay, parlayLegsStored parlay_legs⟩
    .ok (⟨db.nextId + 1, db.rows ++ [(db.nextId, bet)]⟩, none)

/-- Model of `update_bet` (lines 91-113): validates, raises `ValueError` joining
all error messages if any, otherwise runs `UPDATE bets SET ... WHERE
id=?` — rows whose id matches are fully replaced; when no row matches
the statement affects nothing and no error is signalled. -/
def update_bet (bet_id : Nat) (date team_a team_b bet_type sport : String)
    (stake odds : ℚ) (result : String) (notes : String) (is_parlay : Bool)
    (parlay_legs : Option (List ParlayLeg)) (db : BetsDb) :
    Except String BetsDb :=
  let errors := validate_bet_input stake odds result
  if errors ≠ [] then .error (String.intercalate "; " errors)
  else
    let profit_loss := calculate_profit_loss stake odds result
    let bet : Bet :=
      ⟨date, team_a, team_b, bet_type, sport, stake, odds, result,
        profit_loss, notes, is_parlay, parlayLegsStored parlay_legs⟩
    .ok ⟨db.nextId, db.rows.map (fun r => if r.1 = bet_id then (r.1, bet) else r)⟩

/-- The settled subset of a snapshot: rows whose result is Win or Loss
(the isin filter of `calculate_advanced_metrics`, line 213). -/
def settledBets (df : List Bet) : List Bet :=
  df.filter (fun b => b.result == "Win" || b.result == "Loss")

/-- The Win rows of the settled subset (line 217). -/
def winRows (df : List Bet) : List Bet :=
  (settledBets df).filter (fun b => b.result == "Win")

/-- The Loss rows of the settled subset (line 218). -/
def lossRows (df : List Bet) : List Bet :=
  (settledBets df).filter (fun b => b.result == "Loss")

/-- pandas `Series.mean` over a rational column (`sum / length`; the
callers only apply it to non-empty columns or guard the empty case). -/
def qmean (l : List ℚ) : ℚ := l.sum / l.length

/-- pandas `Series.max` over a non-empty rational column. -/
def listMax : List ℚ → ℚ
  | [] => 0
  | x :: xs => xs.foldl max x

/-- pandas `Series.min` over a non-empty rational column. -/
def listMin : List ℚ → ℚ
  | [] => 0
  | x :: xs => xs.foldl min x

/-- Model of `calculate_metrics` (lines 197-206): returns
(total_pl, roi, win_rate, number of rows); `(0, 0, 0, 0)` for an empty
dataframe.  `roi` guards division by zero with `if total_stake > 0`. -/
def calculate_metrics (df : List Bet) : ℚ × ℚ × ℚ × Nat :=
  if df = [] then (0, 0, 0, 0)
  else
    let total_pl := (df.map Bet.profit_loss).sum
    let total_stake := (df.map Bet.stake).sum
    let roi := if total_stake > 0 then total_pl / total_stake * 100 else 0
    let win_rate := qmean (df.map (fun b => if b.result == "Win" then 1 else 0)) * 100
    (total_pl, roi, win_rate, df.length)

/-- The profit factor value: a finite rational or the float infinity. -/
inductive PFVal where
  | finite (q : ℚ)
  | infinite
deriving DecidableEq

/-- The dictionary returned by `calculate_advanced_metrics` when the
settled subset is non-empty. -/
structure AdvancedMetrics where
  avg_win_odds : ℚ
  avg_loss_odds : ℚ
  biggest_win : ℚ
  biggest_loss : ℚ
  expected_value : ℚ
  avg_stake : ℚ
  profit_factor : PFVal
  total_settled_bets : Nat
deriving DecidableEq

/-- Model of `calculate_advanced_metrics` (lines 209-245): the empty
dictionary (modelled as `none`) for an empty dataframe or an empty
settled subset, otherwise the populated metrics dictionary. -/
def calculate_advanced_metrics (df : List Bet) : Option AdvancedMetrics :=
  if df = [] then none
  else
    let settled := settledBets df
    if settled = [] then none
    else
      let wins := winRows df
      let losses := lossRows df
      let avg_odds_win := if wins ≠ [] then qmean (wins.map Bet.odds) else 0
      let avg_odds_loss := if losses ≠ [] then qmean (losses.map Bet.odds) else 0
      let biggest_win := listMax (settled.map Bet.profit_loss)
      let biggest_loss := listMin (settled.map Bet.profit_loss)
      let ev :=
        if settled.length > 0 then
          ((wins.map Bet.profit_loss).sum + (losses.map Bet.profit_loss).sum) / settled.length
        else 0
      let avg_stake := qmean (settled.map Bet.stake)
      let total_won :=
        if wins ≠ [] then (wins.map Bet.profit_loss).sum + (wins.map Bet.stake).sum else 0
      let total_lost := if losses ≠ [] then (losses.map Bet.stake).sum else 0
      let profit_factor :=
        if total_lost > 0 then PFVal.finite (total_won / total_lost) else PFVal.infinite
      some ⟨avg_odds_win, avg_odds_loss, biggest_win, biggest_loss, ev,
        avg_stake, profit_factor, settled.length⟩

/-- Sum of the profit_loss column over the whole snapshot. -/
def totalPl (df : List Bet) : ℚ := (df.map Bet.profit_loss).sum

/-- Sum of the stake column over the whole snapshot. -/
def totalStake (df : List Bet) : ℚ := (df.map Bet.stake).sum

/-- Sum of the loss-row stakes (the denominator of the profit factor). -/
def sumLossStake (df : List Bet) : ℚ := ((lossRows df).map Bet.stake).sum

/-- Sum of the win-row profit_loss values. -/
def sumWinPl (df : List Bet) : ℚ := ((winRows df).map Bet.profit_loss).sum

/-- Sum of the win-row stakes. -/
def sumWinStake (df : List Bet) : ℚ := ((winRows df).map Bet.stake).sum

/-- An SQLite cell value (NULL, INTEGER, REAL or TEXT). -/
inductive Val where
  | null
  | int (i : ℤ)
  | real (q : ℚ)
  | text (s : String)
deriving DecidableEq

/-- A generic SQLite table: an ordered list of column names and rows
aligned with it. -/
structure SqlTable where
  columns : List String
  rows : List (List Val)
deriving DecidableEq

/-- Model of an ALTER TABLE ADD COLUMN statement guarded by the
`if column_name not in existing_columns` check of `init_db`: appends
the column and fills existing rows with NULL. -/
def addColumnIfMissing (t : SqlTable) (name : String) : SqlTable :=
  if name ∈ t.columns then t
  else ⟨t.columns ++ [name], t.rows.map (fun r => r ++ [Val.null])⟩

/-- The `new_columns` dict of `init_db` (lines 28-35), in insertion
order; only the names matter for the state model. -/
def newBetColumns : List String :=
  ["team_a", "team_b", "bet_type", "sport", "is_parlay", "parlay_legs"]

/-- The migration loop of `init_db` (lines 37-39). -/
def migrate (t : SqlTable) : SqlTable :=
  newBetColumns.foldl addColumnIfMissing t

/-- The freshly created `bets` table (lines 43-48). -/
def freshBetsTable : SqlTable :=
  ⟨["id", "date", "team_a", "team_b", "bet_type", "sport", "stake",
    "odds", "result", "profit_loss", "notes", "is_parlay", "parlay_legs"], []⟩

/-- Model of the INSERT OR IGNORE of the bankroll row (1, 0)
(line 61): id is the primary key, so the row is added only when no row
with id 1 exists. -/
def ensureBankRow (rows : List (ℤ × ℚ)) : List (ℤ × ℚ) :=
  if rows.any (fun r => r.1 == 1) then rows else rows ++ [(1, 0)]

/-- The persistent database state seen by `init_db`: the `bets` table
(absent when not yet created), existence of the `quotes` table, and
the rows of the `bankroll` table (absent when not yet created). -/
structure DbState where
  bets : Option SqlTable
  quotes : Bool
  bankroll : Option (List (ℤ × ℚ))
deriving DecidableEq

/-- The `if table_exists: ... else: CREATE TABLE` branch of `init_db`
(lines 21-48): migrate an existing bets table, create a fresh one
otherwise. -/
def migrateOrCreate : Option SqlTable → SqlTable
  | some t => migrate t
  | none => freshBetsTable

/-- Model of `init_db` (lines 13-64): if the `bets` table exists, add each
missing column of `new_columns`; otherwise create it with the full
field set.  Then `CREATE TABLE IF NOT EXISTS` for quotes and bankroll,
and `INSERT OR IGNORE` the bankroll row (1, 0). -/
def init_db (s : DbState) : DbState :=
  ⟨some (migrateOrCreate s.bets), true,
    some (ensureBankRow (s.bankroll.getD []))⟩

/-- Model of the balance lookup of `get_bankroll` (lines 248-254), as a reading of a `DbState`: the balance of the first
row with id 1, when the table and the row exist. -/
def bankBalance (s : DbState) : Option ℚ :=
  s.bankroll.bind (fun rows => (rows.find? (fun r => r.1 == 1)).map (fun r => r.2))

/-- Model of `update_bankroll` (lines 256-268), acting on the bankroll
table rows: add/set/subtract mutate the row with id 1; any other operation
string matches no branch, so the function commits without touching the
table and signals no error. -/
def update_bankroll (amount : ℚ) (operation : String) (rows : List (ℤ × ℚ)) :
    List (ℤ × ℚ) :=
  if operation = "add" then
    rows.map (fun r => if r.1 = 1 then (r.1, r.2 + amount) else r)
  else if operation = "set" then
    rows.map (fun r => if r.1 = 1 then (r.1, amount) else r)
  else if operation = "subtract" then
    rows.map (fun r => if r.1 = 1 then (r.1, r.2 - amount) else r)
  else rows

/-- Example settled winning bet: stake 100 at odds 2.0, Win,
profit_loss 100. -/
def exWinBet : Bet :=
  ⟨"2024-01-01", "A", "B", "Moneyline", "Soccer", 100, 2, "Win", 100, "", false, none⟩

/-- Example settled losing bet: stake 50 at odds 3.0, Loss,
profit_loss -50. -/
def exLossBet : Bet :=
  ⟨"2024-01-02", "C", "D", "Moneyline", "Soccer", 50, 3, "Loss", -50, "", false, none⟩

/-- Example snapshot with one win and one loss. -/
def dfWinLoss : List Bet := [exWinBet, exLossBet]

/-- Example bet store holding a single row with id 0. -/
def exDb : BetsDb := ⟨1, [(0, exWinBet)]⟩

end SoccerBetting

namespace SoccerBetting

/-- C1: For stake > 0 and odds ≥ 1.0, the settlement function returns
stake*(odds-1) on "Win", -stake on "Loss", 0 on "Push" and 0 on
"Pending". -/
theorem C1_settlement (stake odds : ℚ) (hs : 0 < stake) (ho : 1 ≤ odds) :
    calculate_profit_loss stake odds "Win" = stake * (odds - 1) ∧
    calculate_profit_loss stake odds "Loss" = -stake ∧
    calculate_profit_loss stake odds "Push" = 0 ∧
    calculate_profit_loss stake odds "Pending" = 0 := by
  refine ⟨?_, ?_, ?_, ?_⟩ <;> simp [calculate_profit_loss] <;> ring

/-- Witness for C1 at stake = 3, odds = 2. -/
theorem C1_settlement_witness :
    calculate_profit_loss 3 2 "Win" = 3 * (2 - 1) ∧
    calculate_profit_loss 3 2 "Loss" = -3 ∧
    calculate_profit_loss 3 2 "Push" = 0 ∧
    calculate_profit_loss 3 2 "Pending" = 0 :=
  C1_settlement 3 2 (by norm_num) (by norm_num)

/-- C2: Validation returns the complete list of violated rules
simultaneously: the stake message appears iff stake ≤ 0, the odds
message iff odds < 1.0, the result message iff the result is outside
the four enumerated values, and the number of reported violations is
exactly the number of violated rules (so three violated rules give 3
messages and a fully valid input gives the empty list). -/
theorem C2_validation (stake odds : ℚ) (result : String) :
    (("Stake must be positive" ∈ validate_bet_input stake odds result) ↔ stake ≤ 0) ∧
    (("Odds must be at least 1.0" ∈ validate_bet_input stake odds result) ↔ odds < 1) ∧
    (("Invalid result" ∈ validate_bet_input stake odds result) ↔
      result ∉ ["Pending", "Win", "Loss", "Push"]) ∧
    (validate_bet_input stake odds result).length =
      (if stake ≤ 0 then 1 else 0) + (if odds < 1 then 1 else 0) +
        (if result ∈ ["Pending", "Win", "Loss", "Push"] then 0 else 1) := by
  unfold validate_bet_input
  split_ifs with h1 h2 h3 <;> simp_all

/-- C3: The combined-odds function returns the product of the leg
odds rounded to two decimal places (for the empty sequence the
unrounded neutral 1.0 it returns agrees with the rounded empty
product), returns exactly 1.0 on the empty sequence, and combines
odds 2.0 and 1.5 into 3.00. -/
theorem C3_parlay_odds :
    (∀ legs : List ParlayLeg,
      calculate_parlay_odds legs =
        round2 (legs.foldl (fun acc leg => acc * leg.odds) 1)) ∧
    calculate_parlay_odds [] = 1 ∧
    calculate_parlay_odds
      [⟨"", "", "", "", 2, ""⟩, ⟨"", "", "", "", 3/2, ""⟩] = 3 := by
  refine ⟨?_, rfl, by with_unfolding_all decide⟩
  intro legs
  cases legs with
  | nil =>
    show (1 : ℚ) = round2 1
    with_unfolding_all decide
  | cons a as => rfl

/-- Rows of the loss subset are rows of the snapshot. -/
theorem mem_of_mem_lossRows {df : List Bet} {b : Bet} (h : b ∈ lossRows df) : b ∈ df :=
  (List.mem_filter.mp (List.mem_filter.mp h).1).1

/-- The profit factor of a non-empty settled subset, extracted from
the metrics dictionary: finite `total_won / total_lost` when the
loss-stake sum is positive, infinite otherwise. -/
theorem advanced_profit_factor (df : List Bet) (hdf : df ≠ [])
    (hs : settledBets df ≠ []) :
    ∃ m, calculate_advanced_metrics df = some m ∧
      m.profit_factor =
        (if sumLossStake df > 0 then
          PFVal.finite ((sumWinPl df + sumWinStake df) / sumLossStake df)
        else PFVal.infinite) := by
  have hlost : (if lossRows df ≠ [] then ((lossRows df).map Bet.stake).sum else 0)
      = sumLossStake df := by
    by_cases h : lossRows df = [] <;> simp [h, sumLossStake]
  have hwon : (if winRows df ≠ [] then
        ((winRows df).map Bet.profit_loss).sum + ((winRows df).map Bet.stake).sum else 0)
      = sumWinPl df + sumWinStake df := by
    by_cases h : winRows df = [] <;> simp [h, sumWinPl, sumWinStake]
  unfold calculate_advanced_metrics
  rw [if_neg hdf, if_neg hs]
  refine ⟨_, rfl, ?_⟩
  simp only [hlost, hwon]

/-- C6: The advanced-metrics computation returns an absent result
exactly when no record of the snapshot is settled (result Win or
Loss), Pending/Push records notwithstanding; with at least one settled
record it returns a populated metrics object. -/
theorem C6_advanced_metrics_absent (df : List Bet) :
    calculate_advanced_metrics df = none ↔ settledBets df = [] := by
  by_cases h1 : df = []
  · subst h1
    simp [calculate_advanced_metrics, settledBets]
  · by_cases h2 : settledBets df = [] <;>
      simp [calculate_advanced_metrics, h1, h2]

/-- C7: With a non-empty settled subset, the profit factor is the
finite quotient (sum of win profit_loss + sum of win stakes) divided
by the sum of loss stakes whenever that denominator is non-zero, and
is reported as infinite when the loss stakes sum to exactly 0 and at
least one win exists.  Stakes are positive by the ledger validation
invariant. -/
theorem C7_profit_factor (df : List Bet)
    (hpos : ∀ b ∈ df, 0 < b.stake) (hs : settledBets df ≠ []) :
    ∃ m, calculate_advanced_metrics df = some m ∧
      (sumLossStake df ≠ 0 →
        m.profit_factor =
          PFVal.finite ((sumWinPl df + sumWinStake df) / sumLossStake df)) ∧
      (sumLossStake df = 0 → winRows df ≠ [] →
        m.profit_factor = PFVal.infinite) := by
  have hdf : df ≠ [] := by
    intro h
    exact hs (by simp [h, settledBets])
  obtain ⟨m, hm, hpf⟩ := advanced_profit_factor df hdf hs
  refine ⟨m, hm, ?_, ?_⟩
  · intro hne
    have hnn : 0 ≤ sumLossStake df := by
      apply List.sum_nonneg
      intro x hx
      obtain ⟨b, hb, rfl⟩ := List.mem_map.mp hx
      exact le_of_lt (hpos b (mem_of_mem_lossRows hb))
    have hlt : 0 < sumLossStake df := lt_of_le_of_ne hnn (Ne.symm hne)
    rw [hpf, if_pos hlt]
  · intro h0 _
    rw [hpf, if_neg (by simp [h0])]

/-- Witness for C7 on a snapshot with one win (stake 100, odds 2,
profit 100) and one loss (stake 50): the profit factor is the finite
quotient. -/
theorem C7_profit_factor_witness :
    ∃ m, calculate_advanced_metrics dfWinLoss = some m ∧
      m.profit_factor =
        PFVal.finite ((sumWinPl dfWinLoss + sumWinStake dfWinLoss) / sumLossStake dfWinLoss) := by
  obtain ⟨m, hm, h1, h2⟩ :=
    C7_profit_factor dfWinLoss (by with_unfolding_all decide) (by with_unfolding_all decide)
  exact ⟨m, hm, h1 (by with_unfolding_all decide)⟩

/-- C8: The basic-metrics ROI is total profit_loss divided by total
stake times 100 (with quotient 0 at denominator 0), and is exactly 0
when the total stake is 0; stakes are non-negative in any reachable
snapshot. -/
theorem C8_roi (df : List Bet) (hpos : ∀ b ∈ df, 0 ≤ b.stake) :
    (calculate_metrics df).2.1 = totalPl df / totalStake df * 100 ∧
    (totalStake df = 0 → (calculate_metrics df).2.1 = 0) := by
  have hnn : 0 ≤ totalStake df := by
    apply List.sum_nonneg
    intro x hx
    obtain ⟨b, hb, rfl⟩ := List.mem_map.mp hx
    exact hpos b hb
  by_cases hdf : df = []
  · subst hdf
    refine ⟨?_, fun _ => rfl⟩
    simp [calculate_metrics, totalPl, totalStake]
  · unfold calculate_metrics
    rw [if_neg hdf]
    constructor
    · show (if totalStake df > 0 then totalPl df / totalStake df * 100 else 0)
        = totalPl df / totalStake df * 100
      split_ifs with hS
      · rfl
      · have h0 : totalStake df = 0 := le_antisymm (not_lt.mp hS) hnn
        rw [h0]
        simp
    · intro h0
      show (if totalStake df > 0 then totalPl df / totalStake df * 100 else 0) = 0
      rw [h0]
      simp

/-- Witness for C8 on a snapshot with one win and one loss. -/
theorem C8_roi_witness :
    (calculate_metrics dfWinLoss).2.1 = totalPl dfWinLoss / totalStake dfWinLoss * 100 ∧
    (totalStake dfWinLoss = 0 → (calculate_metrics dfWinLoss).2.1 = 0) :=
  C8_roi dfWinLoss (by with_unfolding_all decide)

/-- Mapping a function that fixes every member of a list is the
identity. -/
theorem map_eq_self_of_fixes {α : Type} (l : List α) (f : α → α)
    (h : ∀ x ∈ l, f x = x) : l.map f = l := by
  induction l with
  | nil => rfl
  | cons a as ih =>
    simp only [List.map_cons, List.cons.injEq]
    exact ⟨h a (by simp), ih (fun x hx => h x (by simp [hx]))⟩

/-- C4 counterexample: on a concrete valid input over the empty store,
`add_bet` succeeds and its Python return value is `None` (`none`), not
the identifier of the inserted record — the function never returns the
new id. -/
theorem C4_counterexample :
    (add_bet "2024-01-01" "A" "B" "Moneyline" "Soccer" 100 2 "Win" "" false none
        ⟨0, []⟩).toOption.map Prod.snd = some none := by
  with_unfolding_all decide

/-- C4 (amended): For valid input, `add_bet` inserts exactly one new
record carrying the fresh identifier and the derived profit_loss, and
returns no identifier (Python `None`); for invalid input it fails with
a validation error joining all violated rules and performs no
insert. -/
theorem C4_add_bet (date team_a team_b bet_type sport : String)
    (stake odds : ℚ) (result notes : String) (is_parlay : Bool)
    (parlay_legs : Option (List ParlayLeg)) (db : BetsDb) :
    (validate_bet_input stake odds result = [] →
      ∃ b : Bet,
        add_bet date team_a team_b bet_type sport stake odds result notes
            is_parlay parlay_legs db
          = .ok (⟨db.nextId + 1, db.rows ++ [(db.nextId, b)]⟩, none) ∧
        b.stake = stake ∧ b.odds = odds ∧ b.result = result ∧
        b.profit_loss = calculate_profit_loss stake odds result) ∧
    (validate_bet_input stake odds result ≠ [] →
      add_bet date team_a team_b bet_type sport stake odds result notes
          is_parlay parlay_legs db
        = .error (String.intercalate "; " (validate_bet_input stake odds result))) := by
  constructor
  · intro h
    refine ⟨⟨date, team_a, team_b, bet_type, sport, stake, odds, result,
      calculate_profit_loss stake odds result, notes, is_parlay,
      parlayLegsStored parlay_legs⟩, ?_, rfl, rfl, rfl, rfl⟩
    unfold add_bet
    rw [if_neg (by simp [h])]
  · intro h
    unfold add_bet
    rw [if_pos h]

/-- Witness for C4 (amended) at a concrete valid input over the empty
store. -/
theorem C4_add_bet_witness :
    ∃ b : Bet,
      add_bet "2024-01-01" "A" "B" "Moneyline" "Soccer" 100 2 "Win" "" false none
          ⟨0, []⟩
        = .ok (⟨1, [(0, b)]⟩, none) ∧
      b.stake = 100 ∧ b.odds = 2 ∧ b.result = "Win" ∧
      b.profit_loss = calculate_profit_loss 100 2 "Win" := by
  have h := (C4_add_bet "2024-01-01" "A" "B" "Moneyline" "Soccer" 100 2 "Win" ""
    false none ⟨0, []⟩).1 (by with_unfolding_all decide)
  simpa using h

/-- C5 counterexample: updating id 1 with valid fields over the empty
store (id 1 does not exist) completes with `Except.ok` and the store
unchanged — no "not found" condition is signalled, contradicting the
claim that the failure is surfaced distinctly. -/
theorem C5_counterexample :
    update_bet 1 "2024-01-01" "A" "B" "Moneyline" "Soccer" 100 2 "Win" "" false none
        ⟨0, []⟩
      = .ok ⟨0, []⟩ := by
  with_unfolding_all rfl

/-- C5 (amended): For every id not present in the bet store, the
update-bet operation with valid fields completes without signalling
any error (the missing id is silently ignored) and the store is left
unchanged. -/
theorem C5_update_bet_missing_id (bet_id : Nat)
    (date team_a team_b bet_type sport : String) (stake odds : ℚ)
    (result notes : String) (is_parlay : Bool)
    (parlay_legs : Option (List ParlayLeg)) (db : BetsDb)
    (hv : validate_bet_input stake odds result = [])
    (hid : ∀ r ∈ db.rows, r.1 ≠ bet_id) :
    update_bet bet_id date team_a team_b bet_type sport stake odds result notes
        is_parlay parlay_legs db = .ok db := by
  have hmap : db.rows.map (fun r => if r.1 = bet_id then (r.1,
      (⟨date, team_a, team_b, bet_type, sport, stake, odds, result,
        calculate_profit_loss stake odds result, notes, is_parlay,
        parlayLegsStored parlay_legs⟩ : Bet)) else r) = db.rows :=
    map_eq_self_of_fixes _ _ (fun r hr => if_neg (hid r hr))
  unfold update_bet
  rw [if_neg (by simp [hv])]
  simp only [hmap]

/-- Witness for C5 (amended): updating the absent id 5 in a store
holding only id 0 is a silent no-op. -/
theorem C5_update_bet_missing_id_witness :
    update_bet 5 "2024-01-01" "A" "B" "Moneyline" "Soccer" 100 2 "Win" "" false none
        exDb = .ok exDb :=
  C5_update_bet_missing_id 5 "2024-01-01" "A" "B" "Moneyline" "Soccer" 100 2 "Win" ""
    false none exDb (by with_unfolding_all decide) (by decide)

/-- Column membership is preserved by a conditional column addition. -/
theorem mem_cols_addColumnIfMissing {t : SqlTable} {m : String} (n : String)
    (h : m ∈ t.columns) : m ∈ (addColumnIfMissing t n).columns := by
  unfold addColumnIfMissing
  split_ifs with hn
  · exact h
  · simp [h]

/-- The added column name is present after a conditional addition. -/
theorem self_mem_cols_addColumnIfMissing (t : SqlTable) (n : String) :
    n ∈ (addColumnIfMissing t n).columns := by
  unfold addColumnIfMissing
  split_ifs with hn
  · exact hn
  · simp

/-- A conditional column addition of a column already present is the
identity. -/
theorem addColumnIfMissing_of_mem {t : SqlTable} {n : String}
    (h : n ∈ t.columns) : addColumnIfMissing t n = t := by
  unfold addColumnIfMissing
  rw [if_pos h]

/-- Folding column additions over names already present is the
identity. -/
theorem foldl_addColumnIfMissing_of_all_mem (l : List String) (t : SqlTable)
    (h : ∀ c ∈ l, c ∈ t.columns) : l.foldl addColumnIfMissing t = t := by
  induction l generalizing t with
  | nil => rfl
  | cons a as ih =>
    simp only [List.foldl_cons]
    rw [addColumnIfMissing_of_mem (h a (by simp))]
    exact ih t (fun c hc => h c (by simp [hc]))

/-- Every column present before a fold of column additions is present
afterwards. -/
theorem mem_cols_foldl_of_mem_cols (l : List String) (t : SqlTable) {c : String}
    (h : c ∈ t.columns) : c ∈ (l.foldl addColumnIfMissing t).columns := by
  induction l generalizing t with
  | nil => exact h
  | cons a as ih =>
    simp only [List.foldl_cons]
    exact ih _ (mem_cols_addColumnIfMissing a h)

/-- Every folded-in column name is present after the fold. -/
theorem mem_cols_foldl_of_mem_list (l : List String) (t : SqlTable) {c : String}
    (h : c ∈ l) : c ∈ (l.foldl addColumnIfMissing t).columns := by
  induction l generalizing t with
  | nil => simp at h
  | cons a as ih =>
    simp only [List.foldl_cons]
    rcases List.mem_cons.mp h with rfl | hc
    · exact mem_cols_foldl_of_mem_cols as _ (self_mem_cols_addColumnIfMissing t c)
    · exact ih _ hc

/-- The migration fold is idempotent on tables. -/
theorem migrate_migrate (t : SqlTable) : migrate (migrate t) = migrate t :=
  foldl_addColumnIfMissing_of_all_mem newBetColumns (migrate t)
    (fun c hc => mem_cols_foldl_of_mem_list newBetColumns t hc)

/-- A freshly created bets table already has every migration column. -/
theorem migrate_freshBetsTable : migrate freshBetsTable = freshBetsTable :=
  foldl_addColumnIfMissing_of_all_mem newBetColumns freshBetsTable (by decide)

/-- Migrating-or-creating an existing table migrates it. -/
theorem migrateOrCreate_some (t : SqlTable) : migrateOrCreate (some t) = migrate t := rfl

/-- After `INSERT OR IGNORE`, a bankroll row with id 1 exists. -/
theorem ensureBankRow_any (rows : List (ℤ × ℚ)) :
    (ensureBankRow rows).any (fun r => r.1 == 1) = true := by
  unfold ensureBankRow
  split_ifs with h
  · exact h
  · simp

/-- The INSERT OR IGNORE model is the identity when a row with id 1
exists. -/
theorem ensureBankRow_of_any {rows : List (ℤ × ℚ)}
    (h : rows.any (fun r => r.1 == 1) = true) : ensureBankRow rows = rows := by
  unfold ensureBankRow
  rw [if_pos h]

/-- C9: The schema-ensure operation is idempotent — a second run
leaves the whole stored state (field set, rows, quotes, bankroll)
unchanged — and after any run the bankroll row holds the pre-existing
balance when one existed (never reset) and 0 otherwise. -/
theorem C9_init_db_idempotent (s : DbState) :
    init_db (init_db s) = init_db s ∧
    bankBalance (init_db s) = some ((bankBalance s).getD 0) := by
  have h1 : migrate (migrateOrCreate s.bets) = migrateOrCreate s.bets := by
    cases s.bets with
    | some t => exact migrate_migrate t
    | none => exact migrate_freshBetsTable
  have h2 : ensureBankRow (ensureBankRow (s.bankroll.getD []))
      = ensureBankRow (s.bankroll.getD []) :=
    ensureBankRow_of_any (ensureBankRow_any _)
  constructor
  · unfold init_db
    simp only [migrateOrCreate_some, Option.getD_some, h1, h2]
  · cases hb : s.bankroll with
    | none =>
      simp [bankBalance, init_db, hb, ensureBankRow]
    | some rows =>
      cases hf : rows.find? (fun r => r.1 == 1) with
      | some r =>
        have hp := List.find?_some hf
        have hany : rows.any (fun r => r.1 == 1) = true :=
          List.any_eq_true.mpr ⟨r, List.mem_of_find?_eq_some hf, hp⟩
        simp [bankBalance, init_db, hb, ensureBankRow_of_any hany, hf]
      | none =>
        have hany : rows.any (fun r => r.1 == 1) = false := by
          rw [List.any_eq_false]
          intro x hx
          exact List.find?_eq_none.mp hf x hx
        simp [bankBalance, init_db, hb, ensureBankRow, hany, hf]

/-- C10: The bankroll-adjust operation with an operation name outside
add/subtract/set matches no branch: it leaves the stored rows
unchanged and signals no error. -/
theorem C10_update_bankroll_unrecognized (amount : ℚ) (operation : String)
    (rows : List (ℤ × ℚ)) (h : operation ∉ ["add", "subtract", "set"]) :
    update_bankroll amount operation rows = rows := by
  simp only [List.mem_cons, List.not_mem_nil, or_false, not_or] at h
  obtain ⟨ha, hsub, hset⟩ := h
  unfold update_bankroll
  rw [if_neg ha, if_neg hset, if_neg hsub]

/-- Witness for C10: operation "multiply" with amount 5 leaves the
single bankroll row untouched. -/
theorem C10_update_bankroll_unrecognized_witness :
    update_bankroll 5 "multiply" [(1, 10)] = [(1, 10)] :=
  C10_update_bankroll_unrecognized 5 "multiply" [(1, 10)] (by decide)

end SoccerBetting
